import Mathlib

/-!
# Verification of the ride-hailing client components

Shallow embedding of the two view components of the repository
(`DriverDashboard.tsx` and `OffersModal.tsx`): the client-local state, the
event handlers and the mutation callbacks are modelled as pure functions from
state to a pair of the new state and the list of emitted effects (network
requests, toasts, query-cache invalidations).  JavaScript numbers that carry
prices and ratings are modelled as rationals; ids as naturals.
-/

/-- A driver as carried inside an offer (`Offer.driver` in `OffersModal.tsx`). -/
structure Driver where
  id : Nat
  name : String
  rating : ℚ
deriving DecidableEq, Repr

/-- A vehicle as carried inside an offer (`Offer.vehicle`). -/
structure Vehicle where
  brand : String
  model : String
  year : Nat
  color : String
deriving DecidableEq, Repr

/-- The `Offer` interface of `OffersModal.tsx`. -/
structure Offer where
  id : Nat
  ride_id : Nat
  driver : Driver
  vehicle : Vehicle
  price : ℚ
  selected : Bool
deriving DecidableEq, Repr

/-- The two values of the `sortBy` state of `OffersModal.tsx`. -/
inductive SortBy where
  | price
  | rating
deriving DecidableEq, Repr

/-- The total preorder realised by the JS comparator
`(a, b) => sortBy === "price" ? a.price - b.price : b.driver.rating - a.driver.rating`:
`a` may be placed no later than `b` iff the comparator is `≤ 0` at `(a, b)`. -/
def offerLE : SortBy → Offer → Offer → Prop
  | .price, a, b => a.price ≤ b.price
  | .rating, a, b => b.driver.rating ≤ a.driver.rating

instance offerLE.decRel (sb : SortBy) : DecidableRel (offerLE sb) :=
  fun a b =>
    match sb with
    | .price => inferInstanceAs (Decidable (a.price ≤ b.price))
    | .rating => inferInstanceAs (Decidable (b.driver.rating ≤ a.driver.rating))

instance offerLE.isTotal (sb : SortBy) : IsTotal Offer (offerLE sb) :=
  ⟨fun a b => by cases sb <;> exact le_total _ _⟩

instance offerLE.isTrans (sb : SortBy) : IsTrans Offer (offerLE sb) :=
  ⟨fun a b c hab hbc => by
    cases sb
    · exact le_trans hab hbc
    · exact le_trans hbc hab⟩

/-- The sort key each comparator compares: the offer's price, or its driver's
rating. -/
def offerKey : SortBy → Offer → ℚ
  | .price, o => o.price
  | .rating, o => o.driver.rating

/-- Embedding of `sortedOffers` in `OffersModal.tsx`: the fetched offer list sorted by the
chosen comparator.  `Array.prototype.sort` is specified to be stable, so it is
embedded as the (stable) insertion sort over the comparator's preorder. -/
def sortedOffers (sb : SortBy) (offers : List Offer) : List Offer :=
  offers.insertionSort (offerLE sb)

/-- Inserting `a` commutes with `filter p` whenever every element satisfying
`p` is `r`-above `a` (so `a` never walks past a `p`-element). -/
theorem filter_orderedInsert_eq {α : Type} (r : α → α → Prop) [DecidableRel r]
    (p : α → Bool) (a : α)
    (h : ∀ b, p a = true → p b = true → r a b) :
    ∀ l : List α, (l.orderedInsert r a).filter p = (a :: l).filter p := by
  intro l
  induction l with
  | nil => simp [List.orderedInsert]
  | cons b l ih =>
    by_cases hr : r a b
    · simp [List.orderedInsert, hr]
    · simp only [List.orderedInsert, if_neg hr]
      by_cases hpa : p a = true
      · have hpb : p b = false := by
          cases hpb : p b
          · rfl
          · exact absurd (h b hpa hpb) hr
        simp only [List.filter_cons, hpb, ih, hpa, Bool.false_eq_true, if_false, if_true]
      · have hpa' : p a = false := by
          cases hpa' : p a
          · rfl
          · exact absurd hpa' hpa
        by_cases hpb : p b = true <;>
          simp_all [List.filter_cons]

/-- Stability of the embedded sort, in filter form: the sublist of elements
satisfying a comparator-saturated predicate is untouched by sorting. -/
theorem filter_insertionSort_eq {α : Type} (r : α → α → Prop) [DecidableRel r]
    (p : α → Bool)
    (h : ∀ a b, p a = true → p b = true → r a b) :
    ∀ l : List α, (l.insertionSort r).filter p = l.filter p := by
  intro l
  induction l with
  | nil => rfl
  | cons a l ih =>
    rw [List.insertionSort, filter_orderedInsert_eq r p a (fun b => h a b)]
    simp only [List.filter_cons, ih]

/-- Offer fixture used on the spec's concrete examples: only `id`, `price` and
`driver.rating` vary, the rest is fixed filler. -/
def exOffer (id : Nat) (price rating : ℚ) : Offer :=
  { id := id, ride_id := 1,
    driver := { id := id, name := "d", rating := rating },
    vehicle := { brand := "b", model := "m", year := 2020, color := "c" },
    price := price, selected := false }

/-- The spec's first example list: `[{id:1,price:10,rating:4.5},{id:2,price:8,rating:4.9}]`
(`mkRat 45 10 = 4.5` and `mkRat 49 10 = 4.9`, in the kernel-reducible form). -/
def exA : List Offer := [exOffer 1 10 (mkRat 45 10), exOffer 2 8 (mkRat 49 10)]

/-- The spec's second example list: `[{id:1,price:5,rating:3},{id:2,price:9,rating:5}]`. -/
def exB : List Offer := [exOffer 1 5 3, exOffer 2 9 5]

/-- C1: sort-by-price renders offers in ascending price order, sort-by-rating
in descending rating order, the sort is stable (elements with a given key value
appear in their original relative order) and a permutation of the input, and
the spec's concrete examples evaluate as stated: on `exA` both keys give id
order `[2,1]`; on `exB` price gives `[1,2]` and rating gives `[2,1]`. -/
theorem sortedOffers_correct :
    (∀ l : List Offer, (sortedOffers .price l).Pairwise (fun a b => a.price ≤ b.price))
    ∧ (∀ l : List Offer,
        (sortedOffers .rating l).Pairwise (fun a b => b.driver.rating ≤ a.driver.rating))
    ∧ (∀ (sb : SortBy) (l : List Offer) (v : ℚ),
        (sortedOffers sb l).filter (fun o => decide (offerKey sb o = v))
          = l.filter (fun o => decide (offerKey sb o = v)))
    ∧ (∀ (sb : SortBy) (l : List Offer), (sortedOffers sb l).Perm l)
    ∧ (sortedOffers .price exA).map Offer.id = [2, 1]
    ∧ (sortedOffers .rating exA).map Offer.id = [2, 1]
    ∧ (sortedOffers .price exB).map Offer.id = [1, 2]
    ∧ (sortedOffers .rating exB).map Offer.id = [2, 1] := by
  refine ⟨fun l => ?_, fun l => ?_, fun sb l v => ?_, fun sb l => ?_, ?_, ?_, ?_, ?_⟩
  · exact List.sorted_insertionSort (offerLE .price) l
  · exact List.sorted_insertionSort (offerLE .rating) l
  · refine filter_insertionSort_eq (offerLE sb)
      (fun o => decide (offerKey sb o = v)) (fun a b ha hb => ?_) l
    have ha' : offerKey sb a = v := of_decide_eq_true ha
    have hb' : offerKey sb b = v := of_decide_eq_true hb
    cases sb <;> simp only [offerLE] <;>
      simp only [offerKey] at ha' hb' <;> rw [ha', hb']
  · exact List.perm_insertionSort (offerLE sb) l
  · decide
  · decide
  · decide
  · decide

/-! ## Client-local state, effects and handlers -/

/-- Query-cache keys used by the two components
(`['driverRides']`, `['userRides']`, `['offers', rideId]`). -/
inductive QueryKey where
  | driverRides
  | userRides
  | offers (ride_id : Nat)
deriving DecidableEq, Repr

/-- A JavaScript number as produced by `parseFloat`: `NaN`, a signed
infinity, or a finite value.  Finite doubles are idealised as exact rationals
(no rounding or underflow), per the embedding's number model. -/
inductive JsNum where
  | nan
  | posInf
  | negInf
  | finite (val : ℚ)
deriving DecidableEq, Repr

/-- The JS `isNaN(price)` test. -/
def JsNum.isNaN : JsNum → Bool
  | .nan => true
  | _ => false

/-- The JS comparison `price <= 0`: false at `NaN` and `+Infinity`, true at
`-Infinity`, and the rational comparison at a finite value. -/
def JsNum.leZero : JsNum → Bool
  | .nan => false
  | .posInf => false
  | .negInf => true
  | .finite q => decide (q ≤ 0)

/-- Numeric value of a list of decimal digit characters. -/
def digitsToNat (ds : List Char) : Nat :=
  ds.foldl (fun acc c => 10 * acc + (c.toNat - 48)) 0

/-- Modelled from the JS builtin `parseFloat` (not part of this repository):
skip leading whitespace, read an optional sign, then either the `Infinity`
keyword or decimal digits with an optional fractional part and an optional
`e`/`E` exponent part (the exponent counts only when it carries digits, as in
JS, where `"2e"` parses to `2`); any trailing characters are ignored, and the
result is `NaN` when no digit or `Infinity` follows the sign.  Finite values
are exact rationals: the double rounding and underflow of the builtin are
idealised away. -/
def jsParseFloat (s : String) : JsNum :=
  let cs0 := s.data.dropWhile Char.isWhitespace
  let isNeg : Bool := match cs0 with | '-' :: _ => true | _ => false
  let cs1 : List Char :=
    match cs0 with
    | '-' :: r => r
    | '+' :: r => r
    | _ => cs0
  if "Infinity".data.isPrefixOf cs1 then
    if isNeg then .negInf else .posInf
  else
    let intDs := cs1.takeWhile Char.isDigit
    let cs2 := cs1.dropWhile Char.isDigit
    let fracDs : List Char :=
      match cs2 with
      | '.' :: r => r.takeWhile Char.isDigit
      | _ => []
    if intDs.isEmpty && fracDs.isEmpty then
      .nan
    else
      let cs3 : List Char :=
        match cs2 with
        | '.' :: r => r.dropWhile Char.isDigit
        | _ => cs2
      let expDs : List Char :=
        match cs3 with
        | 'e' :: '-' :: r => r.takeWhile Char.isDigit
        | 'e' :: '+' :: r => r.takeWhile Char.isDigit
        | 'e' :: r => r.takeWhile Char.isDigit
        | 'E' :: '-' :: r => r.takeWhile Char.isDigit
        | 'E' :: '+' :: r => r.takeWhile Char.isDigit
        | 'E' :: r => r.takeWhile Char.isDigit
        | _ => []
      let expNeg : Bool :=
        match cs3 with
        | 'e' :: '-' :: _ => true
        | 'E' :: '-' :: _ => true
        | _ => false
      let num := digitsToNat intDs * 10 ^ fracDs.length + digitsToNat fracDs
      let eVal := digitsToNat expDs
      let mag : ℚ :=
        if expNeg then mkRat num (10 ^ fracDs.length * 10 ^ eVal)
        else mkRat (num * 10 ^ eVal) (10 ^ fracDs.length)
      .finite (if isNeg then -mag else mag)

/-- The network requests the two components can issue, one constructor per
consumed endpoint.  The offer price travels as the JS number `handleSendOffer`
computed, so `+Infinity` (which passes the guard) is representable. -/
inductive Request where
  | getRides
  | postOffer (price : JsNum) (ride_id : Nat)
  | postPinCheck (ride_id : Nat) (pin : String)
  | getOffers (ride_id : Nat)
  | putSelectOffer (ride_id : Nat) (offer_id : Nat)
  | deleteRide (ride_id : Nat)
deriving DecidableEq, Repr

/-- Status of a toast notification. -/
inductive ToastStatus where
  | success
  | error
deriving DecidableEq, Repr

/-- Observable effects a handler can emit besides changing local state. -/
inductive Effect where
  | request (req : Request)
  | toast (status : ToastStatus) (title : String)
  | invalidate (key : QueryKey)
deriving DecidableEq, Repr

/-- Whether an effect is a network request. -/
def Effect.isRequest : Effect → Bool
  | .request _ => true
  | _ => false

/-- The client-local state of `DriverDashboard`: the per-ride price input
buffers (`offerPrices`, a JS object, so a missing key reads as `undefined`,
here `none`), the ride currently selected for PIN entry, the typed PIN, and
whether the PIN modal is open (`useDisclosure`). -/
structure DriverState where
  offerPrices : Nat → Option String
  selectedRideId : Option Nat
  pin : String
  pinModalOpen : Bool

/-- The value `const price = parseFloat(offerPrices[rideId])` computes: a
missing key reads as `undefined`, which `parseFloat` turns into `NaN`. -/
def parsedPrice (s : DriverState) (rideId : Nat) : JsNum :=
  match s.offerPrices rideId with
  | none => .nan
  | some str => jsParseFloat str

/-- Embedding of `handleSendOffer` in `DriverDashboard.tsx`: parse the ride's
buffered price; on `isNaN(price) || price <= 0` toast an error and return;
otherwise fire the offer-creation mutation and clear that ride's buffer to
`''`. -/
def handleSendOffer (s : DriverState) (rideId : Nat) : DriverState × List Effect :=
  if (parsedPrice s rideId).isNaN || (parsedPrice s rideId).leZero then
    (s, [Effect.toast .error "Invalid price"])
  else
    ({ s with offerPrices := fun k => if k = rideId then some "" else s.offerPrices k },
      [Effect.request (.postOffer (parsedPrice s rideId) rideId)])

/-- Embedding of `createOfferMutation.onSuccess`: invalidate the driver ride list and toast
success; no local state is touched. -/
def createOfferOnSuccess (s : DriverState) : DriverState × List Effect :=
  (s, [Effect.invalidate .driverRides, Effect.toast .success "Offer sent successfully"])

/-- Embedding of `createOfferMutation.onError`: toast an error only. -/
def createOfferOnError (s : DriverState) : DriverState × List Effect :=
  (s, [Effect.toast .error "Failed to send offer"])

/-- Embedding of `validatePinMutation.onSuccess`: on `{validation:true}` toast success,
close the PIN modal and invalidate the ride list; on `{validation:false}`
toast an error and change nothing. -/
def validatePinOnSuccess (s : DriverState) (validation : Bool) : DriverState × List Effect :=
  if validation then
    ({ s with pinModalOpen := false },
      [Effect.toast .success "PIN validated successfully", Effect.invalidate .driverRides])
  else
    (s, [Effect.toast .error "Invalid PIN"])

/-- Embedding of `validatePinMutation.onError`: toast an error only. -/
def validatePinOnError (s : DriverState) : DriverState × List Effect :=
  (s, [Effect.toast .error "Error validating PIN"])

/-- Embedding of `handlePinValidation`: select the ride, reset the PIN text and open the
modal. -/
def handlePinValidation (s : DriverState) (rideId : Nat) : DriverState × List Effect :=
  ({ s with selectedRideId := some rideId, pin := "", pinModalOpen := true }, [])

/-- Embedding of `handlePinSubmit`: `if (selectedRideId) ...` — fire the PIN-validation
mutation only when a ride is selected.  JS truthiness makes a selected id of
`0` falsy as well, so it is kept explicit here. -/
def handlePinSubmit (s : DriverState) : DriverState × List Effect :=
  match s.selectedRideId with
  | none => (s, [])
  | some rideId =>
    if rideId = 0 then (s, [])
    else (s, [Effect.request (.postPinCheck rideId s.pin)])

/-- The client-local state of `OffersModal`: the ride the modal is for (a
prop), the chosen sort key, the cached offer list for that ride (`undefined`
before the first fetch, hence `Option`), and whether the modal is open.  The
modal also declares an unused `pin` string state; it is never read and is
omitted. -/
structure OffersState where
  rideId : Nat
  sortBy : SortBy
  offersCache : Option (List Offer)
  isOpen : Bool

/-- The updater passed to `queryClient.setQueryData` in `handleDecline`:
`oldData ? oldData.filter(offer => offer.id !== offerId) : []`. -/
def declineList (oldData : Option (List Offer)) (offerId : Nat) : List Offer :=
  match oldData with
  | some old => old.filter (fun o => o.id != offerId)
  | none => []

/-- Embedding of `handleDecline` in `OffersModal.tsx`: rewrite the cached offer list
locally; no effect of any kind is emitted. -/
def handleDecline (s : OffersState) (offerId : Nat) : OffersState × List Effect :=
  ({ s with offersCache := some (declineList s.offersCache offerId) }, [])

/-- Embedding of `handleAccept`: fire the select-offer mutation. -/
def handleAccept (s : OffersState) (offerId : Nat) : OffersState × List Effect :=
  (s, [Effect.request (.putSelectOffer s.rideId offerId)])

/-- Embedding of `acceptOfferMutation.onSuccess`: invalidate the offer list and the rider
ride list, toast the returned PIN, and close the modal. -/
def acceptOfferOnSuccess (s : OffersState) (pin : String) : OffersState × List Effect :=
  ({ s with isOpen := false },
    [Effect.invalidate (.offers s.rideId), Effect.invalidate .userRides,
      Effect.toast .success ("Offer accepted, PIN " ++ pin)])

/-- Embedding of `acceptOfferMutation.onError`: toast an error only. -/
def acceptOfferOnError (s : OffersState) : OffersState × List Effect :=
  (s, [Effect.toast .error "Error accepting offer"])

/-- Embedding of `handleCancelRide`: fire the ride-deletion mutation for the modal's ride. -/
def handleCancelRide (s : OffersState) : OffersState × List Effect :=
  (s, [Effect.request (.deleteRide s.rideId)])

/-- Embedding of `cancelRideMutation.onSuccess`: invalidate the rider ride list, toast
success and close the modal; the cached offer list is never consulted. -/
def cancelRideOnSuccess (s : OffersState) : OffersState × List Effect :=
  ({ s with isOpen := false },
    [Effect.invalidate .userRides, Effect.toast .success "Ride cancelled successfully"])

/-- Embedding of `cancelRideMutation.onError`: toast an error only. -/
def cancelRideOnError (s : OffersState) : OffersState × List Effect :=
  (s, [Effect.toast .error "Error cancelling ride"])

/-- The status-dependent action a ride card of `DriverDashboard` renders. -/
inductive RideAction where
  | priceInput
  | validatePinButton
  | completedText
  | noAction
deriving DecidableEq, Repr

/-- Modelled from the JS builtin `String.prototype.toUpperCase` (not part of
this repository), restricted to the per-character ASCII mapping, which is all
the status strings compared here exercise. -/
def jsToUpper (s : String) : String :=
  String.mk (s.data.map Char.toUpper)

/-- The nested conditional of the ride card:
`ride.status.toUpperCase() === 'REQUESTED' ? ... : 'ACCEPTED' ? ... :
'COMPLETED' ? ... : null`. -/
def rideAction (status : String) : RideAction :=
  if jsToUpper status = "REQUESTED" then .priceInput
  else if jsToUpper status = "ACCEPTED" then .validatePinButton
  else if jsToUpper status = "COMPLETED" then .completedText
  else .noAction

/-! ## Claim theorems -/

/-- C2: whenever the buffered string for a ride parses to NaN or to a number
at most zero (the guard `isNaN(price) || price <= 0`), `handleSendOffer`
changes no state, surfaces a local error toast, and emits no network request
at all. -/
theorem handleSendOffer_invalid_price_no_request (s : DriverState) (rideId : Nat)
    (h : (parsedPrice s rideId).isNaN = true ∨ (parsedPrice s rideId).leZero = true) :
    handleSendOffer s rideId = (s, [Effect.toast .error "Invalid price"])
    ∧ ((handleSendOffer s rideId).2.all (fun e => !e.isRequest)) = true := by
  have hg : ((parsedPrice s rideId).isNaN || (parsedPrice s rideId).leZero) = true := by
    rcases h with h | h <;> simp [h]
  unfold handleSendOffer
  rw [if_pos hg]
  exact ⟨rfl, rfl⟩

/-- C2 witness: the buffer `"-Infinity"` parses to a number at most zero, so
no request is issued. -/
theorem handleSendOffer_invalid_price_no_request_witness :
    handleSendOffer ⟨fun _ => some "-Infinity", none, "", false⟩ 1
      = (⟨fun _ => some "-Infinity", none, "", false⟩, [Effect.toast .error "Invalid price"])
    ∧ ((handleSendOffer ⟨fun _ => some "-Infinity", none, "", false⟩ 1).2.all
        (fun e => !e.isRequest)) = true :=
  handleSendOffer_invalid_price_no_request ⟨fun _ => some "-Infinity", none, "", false⟩ 1
    (Or.inr (by decide))

/-- C3 fails as stated: the buffer is cleared at send time, before the request
resolves, so after a failed offer creation the ride's price buffer holds `""`
and not its pre-request contents `"12"` (while the request itself was issued). -/
theorem sendOffer_error_restores_state_counterexample :
    (handleSendOffer ⟨fun _ => some "12", none, "", false⟩ 1).2
      = [Effect.request (.postOffer (.finite 12) 1)]
    ∧ (createOfferOnError
        (handleSendOffer ⟨fun _ => some "12", none, "", false⟩ 1).1).1.offerPrices 1
      = some ""
    ∧ (⟨fun _ => some "12", none, "", false⟩ : DriverState).offerPrices 1 = some "12"
    ∧ (createOfferOnError
        (handleSendOffer ⟨fun _ => some "12", none, "", false⟩ 1).1).1.offerPrices 1
      ≠ (⟨fun _ => some "12", none, "", false⟩ : DriverState).offerPrices 1 := by
  refine ⟨by decide, by decide, rfl, by decide⟩

/-- C3 amended: every mutation error handler leaves the local state exactly as
it was and emits only a transient error toast; however, the per-ride price
buffer is cleared when the offer-creation request is issued, so after a failed
offer creation that buffer holds `""` rather than its pre-request text. -/
theorem mutation_onError_state_invariant :
    (∀ s : DriverState, createOfferOnError s
        = (s, [Effect.toast .error "Failed to send offer"]))
    ∧ (∀ s : DriverState, validatePinOnError s
        = (s, [Effect.toast .error "Error validating PIN"]))
    ∧ (∀ s : OffersState, acceptOfferOnError s
        = (s, [Effect.toast .error "Error accepting offer"]))
    ∧ (∀ s : OffersState, cancelRideOnError s
        = (s, [Effect.toast .error "Error cancelling ride"]))
    ∧ (∀ (s : DriverState) (rideId : Nat) (p : JsNum),
        parsedPrice s rideId = p → p.isNaN = false → p.leZero = false →
        (createOfferOnError (handleSendOffer s rideId).1).1.offerPrices rideId = some "") := by
  refine ⟨fun s => rfl, fun s => rfl, fun s => rfl, fun s => rfl,
    fun s rideId p hp hnan hle => ?_⟩
  have hg : ((parsedPrice s rideId).isNaN || (parsedPrice s rideId).leZero) = false := by
    rw [hp, hnan, hle]
    rfl
  unfold handleSendOffer
  rw [if_neg (by rw [hg]; exact Bool.false_ne_true)]
  simp [createOfferOnError]

/-- C3 amended witness: a valid buffer `"7"`, sent and then failed, ends empty. -/
theorem mutation_onError_state_invariant_witness :
    (createOfferOnError
        (handleSendOffer ⟨fun _ => some "7", none, "", false⟩ 2).1).1.offerPrices 2
      = some "" :=
  mutation_onError_state_invariant.2.2.2.2 ⟨fun _ => some "7", none, "", false⟩ 2
    (.finite 7) (by decide) (by decide) (by decide)

/-- C4: a `{validation:false}` response leaves the state untouched (in
particular the PIN modal keeps its open state), shows only an error toast and
triggers no ride-list invalidation; a `{validation:true}` response closes the
modal, toasts success and invalidates the driver ride list. -/
theorem validatePin_response_behavior :
    ∀ s : DriverState,
      validatePinOnSuccess s false = (s, [Effect.toast .error "Invalid PIN"])
      ∧ (validatePinOnSuccess s false).1.pinModalOpen = s.pinModalOpen
      ∧ ((validatePinOnSuccess s false).2.all
          (fun e => decide (e ≠ Effect.invalidate .driverRides))) = true
      ∧ validatePinOnSuccess s true
          = ({ s with pinModalOpen := false },
              [Effect.toast .success "PIN validated successfully",
                Effect.invalidate .driverRides])
      ∧ (validatePinOnSuccess s true).1.pinModalOpen = false := by
  intro s
  exact ⟨rfl, rfl, rfl, rfl, rfl⟩

/-- C5: declining an offer emits no effect whatsoever (in particular no
network request), only rewrites the cached list to the original one with every
offer of that id filtered out, and afterwards no offer with that id remains. -/
theorem handleDecline_local_only :
    ∀ (s : OffersState) (offerId : Nat),
      (handleDecline s offerId).2 = []
      ∧ (handleDecline s offerId).1.offersCache
          = some ((s.offersCache.getD []).filter (fun o => o.id != offerId))
      ∧ (handleDecline s offerId).1.rideId = s.rideId
      ∧ (handleDecline s offerId).1.sortBy = s.sortBy
      ∧ (handleDecline s offerId).1.isOpen = s.isOpen
      ∧ (((handleDecline s offerId).1.offersCache.getD []).all
          (fun o => o.id != offerId)) = true := by
  intro s offerId
  refine ⟨rfl, ?_, rfl, rfl, rfl, ?_⟩
  · rcases s with ⟨rid, sb, cache, op⟩
    cases cache <;> simp [handleDecline, declineList]
  · rw [List.all_eq_true]
    rcases s with ⟨rid, sb, cache, op⟩
    cases cache with
    | none => intro o ho; simp [handleDecline, declineList] at ho
    | some old =>
      intro o ho
      simp only [handleDecline, declineList, Option.getD_some] at ho
      exact (List.mem_filter.mp ho).2

/-- C6: once the ride-deletion request resolves, the modal is closed; the
whole outcome (closing and the emitted effects) is independent of the cached
offer list, empty or absent included. -/
theorem cancelRide_closes_modal :
    ∀ s : OffersState,
      cancelRideOnSuccess s
        = ({ s with isOpen := false },
            [Effect.invalidate .userRides, Effect.toast .success "Ride cancelled successfully"])
      ∧ (cancelRideOnSuccess s).1.isOpen = false
      ∧ (∀ c : Option (List Offer),
          (cancelRideOnSuccess { s with offersCache := c }).1.isOpen = false
          ∧ (cancelRideOnSuccess { s with offersCache := c }).2
            = (cancelRideOnSuccess s).2) := by
  intro s
  exact ⟨rfl, rfl, fun c => ⟨rfl, rfl⟩⟩

/-- C7: when the buffered price passes the guard (not NaN, not at most zero),
sending the offer
issues exactly the offer-creation request, clears that ride's buffer to `""`
while leaving every other ride's buffer as it was, and the success callback
then invalidates the driver ride list without touching local state. -/
theorem createOffer_success_clears_buffer (s : DriverState) (rideId : Nat) (p : JsNum)
    (hp : parsedPrice s rideId = p) (hnan : p.isNaN = false) (hle : p.leZero = false) :
    (handleSendOffer s rideId).2 = [Effect.request (.postOffer p rideId)]
    ∧ (handleSendOffer s rideId).1.offerPrices rideId = some ""
    ∧ ((handleSendOffer s rideId).1.offerPrices
        = fun k => if k = rideId then some "" else s.offerPrices k)
    ∧ createOfferOnSuccess (handleSendOffer s rideId).1
        = ((handleSendOffer s rideId).1,
            [Effect.invalidate .driverRides, Effect.toast .success "Offer sent successfully"]) := by
  have hg : ((parsedPrice s rideId).isNaN || (parsedPrice s rideId).leZero) = false := by
    rw [hp, hnan, hle]
    rfl
  unfold handleSendOffer
  rw [if_neg (by rw [hg]; exact Bool.false_ne_true)]
  exact ⟨by rw [hp], by simp, rfl, rfl⟩

/-- C7 witness: ride 1's buffer `"2e3"` is sent as the price `2000` and
cleared, ride 2's buffer `"5"` is untouched. -/
theorem createOffer_success_clears_buffer_witness :
    (handleSendOffer ⟨fun k => if k = 1 then some "2e3" else some "5", none, "", false⟩ 1).2
      = [Effect.request (.postOffer (.finite 2000) 1)]
    ∧ (handleSendOffer
        ⟨fun k => if k = 1 then some "2e3" else some "5", none, "", false⟩ 1).1.offerPrices 1
      = some ""
    ∧ (handleSendOffer
        ⟨fun k => if k = 1 then some "2e3" else some "5", none, "", false⟩ 1).1.offerPrices 2
      = some "5" := by
  have h := createOffer_success_clears_buffer
    ⟨fun k => if k = 1 then some "2e3" else some "5", none, "", false⟩ 1 (.finite 2000)
    (by decide) (by decide) (by decide)
  refine ⟨h.1, h.2.1, ?_⟩
  rw [h.2.2.1]
  rfl


/-- C8: the rendered status action only depends on the uppercased status
string, so two statuses that differ only in letter case render the same
action. -/
theorem rideAction_case_insensitive (s₁ s₂ : String) (h : jsToUpper s₁ = jsToUpper s₂) :
    rideAction s₁ = rideAction s₂ := by
  simp only [rideAction, h]

/-- C8 witness: `"requested"` and `"ReQuEsTeD"` render the same action, the
price input. -/
theorem rideAction_case_insensitive_witness :
    rideAction "requested" = rideAction "ReQuEsTeD"
    ∧ rideAction "requested" = RideAction.priceInput :=
  ⟨rideAction_case_insensitive "requested" "ReQuEsTeD" (by decide), by decide⟩

/-- C9: with no ride selected for PIN entry, submitting the PIN modal does
nothing: no request, no state change, no notification. -/
theorem handlePinSubmit_no_selection (s : DriverState) (h : s.selectedRideId = none) :
    handlePinSubmit s = (s, []) := by
  simp only [handlePinSubmit, h]

/-- C9 witness: a concrete state with no selected ride and PIN text `"1234"`. -/
theorem handlePinSubmit_no_selection_witness :
    handlePinSubmit ⟨fun _ => none, none, "1234", false⟩
      = (⟨fun _ => none, none, "1234", false⟩, []) :=
  handlePinSubmit_no_selection ⟨fun _ => none, none, "1234", false⟩ rfl

/-- C10: the local decline is idempotent on the cached list, an absent cache
declines to the empty list, and declining an id not present leaves the list
unchanged. -/
theorem declineList_idempotent :
    ∀ (c : Option (List Offer)) (offerId : Nat),
      declineList (some (declineList c offerId)) offerId = declineList c offerId
      ∧ declineList none offerId = []
      ∧ ∀ l : List Offer, offerId ∉ l.map Offer.id → declineList (some l) offerId = l := by
  intro c offerId
  refine ⟨?_, rfl, ?_⟩
  · cases c <;> simp [declineList, List.filter_filter]
  · intro l h
    simp only [declineList]
    rw [List.filter_eq_self]
    intro o ho
    exact bne_iff_ne.mpr fun he => h (he ▸ List.mem_map_of_mem Offer.id ho)

/-- C10 witness: declining id 1 twice on a concrete cache equals declining it
once; declining the absent id 7 is the identity. -/
theorem declineList_idempotent_witness :
    declineList (some (declineList (some [exOffer 1 5 3, exOffer 2 9 5]) 1)) 1
      = declineList (some [exOffer 1 5 3, exOffer 2 9 5]) 1
    ∧ declineList none 1 = []
    ∧ declineList (some [exOffer 1 5 3, exOffer 2 9 5]) 7
      = [exOffer 1 5 3, exOffer 2 9 5] :=
  ⟨(declineList_idempotent (some [exOffer 1 5 3, exOffer 2 9 5]) 1).1,
    (declineList_idempotent (some [exOffer 1 5 3, exOffer 2 9 5]) 1).2.1,
    (declineList_idempotent (some [exOffer 1 5 3, exOffer 2 9 5]) 7).2.2
      [exOffer 1 5 3, exOffer 2 9 5] (by decide)⟩
